import Mathlib

/-!
Shallow embedding of `src/main.rs` of the gpuatop repository: a GPU
utilization monitor that identifies the GPU vendor from `lspci -v` output,
checks (via `which`) that the vendor's monitoring tool is installed,
installs it through the first available package manager when absent, and
then polls the tool once per second, printing its trimmed stdout.

The effectful Rust code is embedded by passing an explicit environment
(`Env`) that answers each subprocess invocation with either `none`
(the spawn itself failed, which the Rust code turns into a
`panic!`/`expect` with message "Failed to execute command") or
`some SpawnResult` (exit status plus captured stdout bytes). Each Rust
`panic!` becomes an `Except.error` with a constructor named after the
spec's error taxonomy; alongside its result, each embedded function
returns the list of subprocess invocations it performed, in order.
-/

deriving instance DecidableEq for Except

/-- Vendor of the GPU, mirroring the Rust `enum GpuType`. -/
inductive GpuType where
  | Nvidia : GpuType
  | Amd : GpuType
  | Intel : GpuType
deriving DecidableEq

/-- Package manager, mirroring the Rust `enum PackageManager`. -/
inductive PackageManager where
  | Apt : PackageManager
  | Pacman : PackageManager
  | Yum : PackageManager
deriving DecidableEq

/-- A subprocess invocation: the program name and its argument list, one
entry per `.arg(...)` call in the Rust source. -/
structure Invocation where
  program : String
  args : List String
deriving DecidableEq

/-- Captured stdout bytes of a subprocess, abstracted by whether they decode
as UTF-8: `valid s` is a byte sequence decoding to the text `s`, `invalid`
is any byte sequence that is not valid UTF-8. -/
inductive Bytes where
  | valid (s : String) : Bytes
  | invalid : Bytes
deriving DecidableEq

/-- Rust's `str::from_utf8` on captured stdout, at the level of the `Bytes`
abstraction: succeeds exactly on decodable byte sequences. -/
def from_utf8 : Bytes → Option String
  | .valid s => some s
  | .invalid => none

/-- What a successfully spawned subprocess produced: `success` is Rust's
`output.status.success()` (exit status 0), `stdout` the captured bytes. -/
structure SpawnResult where
  success : Bool
  stdout : Bytes
deriving DecidableEq

/-- The host environment: answers each invocation with `none` when the spawn
itself fails and `some r` when the subprocess runs and yields `r`. -/
abbrev Env := Invocation → Option SpawnResult

/-- Errors of the run. Every one corresponds to a Rust `panic!`/`expect`:
`toolExecutionFailed` is `expect "Failed to execute command"` on a spawn,
`invalidOutputEncoding` is `expect "Not UTF-8"`, `unsupportedHardware` is
`panic! "GPU not found"`, and `noPackageManagerFound` is
`panic! "Package manager not found"`. -/
inductive RunError where
  | toolExecutionFailed : RunError
  | invalidOutputEncoding : RunError
  | unsupportedHardware : RunError
  | noPackageManagerFound : RunError
deriving DecidableEq

/-- Whether the list of characters `s` starts with the list `p`. -/
def listStartsWith : List Char → List Char → Bool
  | _, [] => true
  | [], _ :: _ => false
  | a :: s, b :: p => a == b && listStartsWith s p

/-- Whether the character list `p` occurs as a contiguous run inside `s`. -/
def listContainsSub (p : List Char) : List Char → Bool
  | [] => listStartsWith [] p
  | a :: t => listStartsWith (a :: t) p || listContainsSub p t

/-- Rust's `str::contains(pat)`: substring containment. -/
def strContains (s pat : String) : Bool :=
  listContainsSub pat.data s.data

/-- Drops leading whitespace characters from a character list. -/
def dropLeadingWs : List Char → List Char
  | [] => []
  | c :: t => if c.isWhitespace then dropLeadingWs t else c :: t

/-- Rust's `str::trim`: strip whitespace from both ends of the text. -/
def rustTrim (s : String) : String :=
  ⟨(dropLeadingWs (dropLeadingWs s.data).reverse).reverse⟩

/-- The invocation `lspci -v` used by `identify_gpu_card`. -/
def lspciInv : Invocation := ⟨"lspci", ["-v"]⟩

/-- The invocation `which name` used for every search-path lookup. -/
def whichInv (name : String) : Invocation := ⟨"which", [name]⟩

/-- Embeds Rust `identify_gpu_card`: spawn `lspci -v`, decode its stdout,
scan for the substrings "NVIDIA", "AMD", "Intel" in that order, first match
winning; panic "GPU not found" when none occurs. -/
def identify_gpu_card (env : Env) : Except RunError GpuType × List Invocation :=
  (match env lspciInv with
    | none => .error .toolExecutionFailed
    | some out =>
      match from_utf8 out.stdout with
      | none => .error .invalidOutputEncoding
      | some s =>
        if strContains s "NVIDIA" then .ok .Nvidia
        else if strContains s "AMD" then .ok .Amd
        else if strContains s "Intel" then .ok .Intel
        else .error .unsupportedHardware,
   [lspciInv])

/-- The inner `match package_manager` of Rust `identify_package_manager`,
mapping the probed binary name back to the variant; the wildcard arm is the
code's `panic! "Package manager not found"`. -/
def pmOfName : String → Option PackageManager
  | "apt" => some .Apt
  | "pacman" => some .Pacman
  | "yum" => some .Yum
  | _ => none

/-- The `for package_manager in package_managers` loop body of Rust
`identify_package_manager`: spawn `which name` for each name in order,
return on the first lookup that exits 0; falling off the list is the final
`panic! "Package manager not found"`. -/
def identify_package_manager_loop (env : Env) :
    List String → Except RunError PackageManager × List Invocation
  | [] => (.error .noPackageManagerFound, [])
  | name :: rest =>
    match env (whichInv name) with
    | none => (.error .toolExecutionFailed, [whichInv name])
    | some r =>
      if r.success then
        match pmOfName name with
        | some pm => (.ok pm, [whichInv name])
        | none => (.error .noPackageManagerFound, [whichInv name])
      else
        let next := identify_package_manager_loop env rest
        (next.1, whichInv name :: next.2)

/-- Embeds Rust `identify_package_manager`, probing the fixed list
`vec!["apt", "pacman", "yum"]`. -/
def identify_package_manager (env : Env) :
    Except RunError PackageManager × List Invocation :=
  identify_package_manager_loop env ["apt", "pacman", "yum"]

/-- Embeds Rust `check_top_exists_local`: per vendor, spawn `which` on the
vendor's monitoring binary and return `output.status.success()`; only a
spawn failure is an error. -/
def check_top_exists_local (env : Env) (gpu_type : GpuType) :
    Except RunError Bool × List Invocation :=
  match gpu_type with
  | .Nvidia =>
    (match env (whichInv "nvidia-smi") with
      | none => .error .toolExecutionFailed
      | some r => .ok r.success,
     [whichInv "nvidia-smi"])
  | .Amd =>
    (match env (whichInv "radeontop") with
      | none => .error .toolExecutionFailed
      | some r => .ok r.success,
     [whichInv "radeontop"])
  | .Intel =>
    (match env (whichInv "intel_gpu_top") with
      | none => .error .toolExecutionFailed
      | some r => .ok r.success,
     [whichInv "intel_gpu_top"])

/-- The monitoring binary name `check_top_exists_local` probes for each
vendor (the spec's Tool Registry, binary column). -/
def toolBinary : GpuType → String
  | .Nvidia => "nvidia-smi"
  | .Amd => "radeontop"
  | .Intel => "intel_gpu_top"

/-- The package name `install_top_for_gpu_to` installs for each vendor (the
spec's Tool Registry, install-package column). -/
def installPackage : GpuType → String
  | .Nvidia => "nvidia-smi"
  | .Amd => "radeontop"
  | .Intel => "intel_gpu_top"

/-- The install invocation built by the nine arms of Rust
`install_top_for_gpu_to`, one `.arg` per list entry. -/
def installInvocation (gpu_type : GpuType) (pm : PackageManager) : Invocation :=
  match gpu_type, pm with
  | .Nvidia, .Apt => ⟨"apt", ["install", "-y", "nvidia-smi"]⟩
  | .Nvidia, .Pacman => ⟨"pacman", ["-S", "--noconfirm", "nvidia-smi"]⟩
  | .Nvidia, .Yum => ⟨"yum", ["install", "-y", "nvidia-smi"]⟩
  | .Amd, .Apt => ⟨"apt", ["install", "-y", "radeontop"]⟩
  | .Amd, .Pacman => ⟨"pacman", ["-S", "--noconfirm", "radeontop"]⟩
  | .Amd, .Yum => ⟨"yum", ["install", "-y", "radeontop"]⟩
  | .Intel, .Apt => ⟨"apt", ["install", "-y", "intel_gpu_top"]⟩
  | .Intel, .Pacman => ⟨"pacman", ["-S", "--noconfirm", "intel_gpu_top"]⟩
  | .Intel, .Yum => ⟨"yum", ["install", "-y", "intel_gpu_top"]⟩

/-- Embeds Rust `install_top_for_gpu_to`: spawn the install invocation via
`.output().expect(...)` and discard the captured output entirely — the exit
status is never inspected; only a spawn failure panics. -/
def install_top_for_gpu_to (env : Env) (gpu_type : GpuType)
    (pm : PackageManager) : Except RunError Unit × List Invocation :=
  (match env (installInvocation gpu_type pm) with
    | none => .error .toolExecutionFailed
    | some _ => .ok (),
   [installInvocation gpu_type pm])

/-- The polling invocation built by the loop's `match gpu_type` in Rust
`main`. Each `.arg("...")` in the source contributes exactly one argument:
the Amd arm is a single `.arg("-d -")`, the Intel arm is
`.arg("-s 1").arg("-o -")`. -/
def pollInvocation : GpuType → Invocation
  | .Nvidia => ⟨"nvidia-smi", ["--query-gpu=utilization.gpu", "--format=csv,noheader,nounits"]⟩
  | .Amd => ⟨"radeontop", ["-d -"]⟩
  | .Intel => ⟨"intel_gpu_top", ["-s 1", "-o -"]⟩

/-- One iteration of the polling loop in Rust `main`: spawn the vendor's
polling invocation, decode stdout (`expect "Not UTF-8"`), and produce the
trimmed text that is printed; the exit status is ignored. -/
def pollTick (env : Env) (gpu_type : GpuType) : Except RunError String :=
  match env (pollInvocation gpu_type) with
  | none => .error .toolExecutionFailed
  | some r =>
    match from_utf8 r.stdout with
    | none => .error .invalidOutputEncoding
    | some s => .ok (rustTrim s)

/-- The polling loop of Rust `main`, cut off after `fuel` iterations (the
real loop has no exit besides a panic). `envs n` is the host environment at
tick `n`; the result pairs how the observed prefix ended (`.ok ()` when the
loop is still running at the cut-off) with the printed utilization lines,
in order. A tick that panics stops the loop at once. -/
def runPoll (envs : Nat → Env) (gpu_type : GpuType) :
    Nat → Except RunError Unit × List String
  | 0 => (.ok (), [])
  | fuel + 1 =>
    match pollTick (envs 0) gpu_type with
    | .error e => (.error e, [])
    | .ok line =>
      let rest := runPoll (fun n => envs (n + 1)) gpu_type fuel
      (rest.1, line :: rest.2)

/-- The part of Rust `main` before the polling loop: identify the vendor,
check tool presence, and when absent identify the package manager and run
the installer. Returns the vendor the loop will poll for, with the full
subprocess trace. -/
def mainSetup (env : Env) : Except RunError GpuType × List Invocation :=
  match identify_gpu_card env with
  | (.error e, tr) => (.error e, tr)
  | (.ok gpu_type, tr1) =>
    match check_top_exists_local env gpu_type with
    | (.error e, tr2) => (.error e, tr1 ++ tr2)
    | (.ok top_exists, tr2) =>
      if !top_exists then
        match identify_package_manager env with
        | (.error e, tr3) => (.error e, tr1 ++ tr2 ++ tr3)
        | (.ok pm, tr3) =>
          match install_top_for_gpu_to env gpu_type pm with
          | (.error e, tr4) => (.error e, tr1 ++ tr2 ++ tr3 ++ tr4)
          | (.ok _, tr4) => (.ok gpu_type, tr1 ++ tr2 ++ tr3 ++ tr4)
      else (.ok gpu_type, tr1 ++ tr2)

/-- Rust `main`: the setup phase followed by the polling loop (cut off after
`fuel` ticks); a panic during setup never reaches the loop. -/
def mainRun (env : Env) (envs : Nat → Env) (fuel : Nat) :
    Except RunError Unit × List String :=
  match mainSetup env with
  | (.error e, _) => (.error e, [])
  | (.ok gpu_type, _) => runPoll envs gpu_type fuel

/-- A host where `lspci -v` reports an AMD card, `radeontop` is absent,
only `pacman` resolves among the package managers, the install subprocess
runs but exits with a non-zero status, and every other subprocess (in
particular the polling invocation) succeeds with stdout "7". -/
def amdPacmanEnv : Env := fun inv =>
  if inv = lspciInv then some ⟨true, .valid "AMD Radeon card"⟩
  else if inv = whichInv "radeontop" then some ⟨false, .valid ""⟩
  else if inv = whichInv "apt" then some ⟨false, .valid ""⟩
  else if inv = whichInv "pacman" then some ⟨true, .valid ""⟩
  else if inv = whichInv "yum" then some ⟨false, .valid ""⟩
  else if inv = installInvocation .Amd .Pacman then some ⟨false, .valid ""⟩
  else some ⟨true, .valid "7"⟩

/-- A host whose PCI listing mentions both AMD and NVIDIA, AMD first. -/
def bothVendorEnv : Env := fun inv =>
  if inv = lspciInv then some ⟨true, .valid "AMD NVIDIA"⟩
  else some ⟨true, .valid ""⟩

/-- A host where both `lspci -v` and the Nvidia polling tool emit bytes
that are not valid UTF-8. -/
def invalidUtf8Env : Env := fun inv =>
  if inv = lspciInv then some ⟨true, .invalid⟩
  else if inv = pollInvocation .Nvidia then some ⟨true, .invalid⟩
  else some ⟨true, .valid ""⟩

/-- A host where the `which nvidia-smi` lookup runs and exits non-zero. -/
def toolAbsentEnv : Env := fun inv =>
  if inv = whichInv "nvidia-smi" then some ⟨false, .valid ""⟩
  else some ⟨true, .valid ""⟩

/-- A host where no subprocess can be spawned at all. -/
def spawnFailEnv : Env := fun _ => none

/-- A host with an Intel card, `intel_gpu_top` absent, and none of the
three package managers resolvable. -/
def noPmEnv : Env := fun inv =>
  if inv = lspciInv then some ⟨true, .valid "Some Intel device"⟩
  else if inv = whichInv "intel_gpu_top" then some ⟨false, .valid ""⟩
  else if inv = whichInv "apt" then some ⟨false, .valid ""⟩
  else if inv = whichInv "pacman" then some ⟨false, .valid ""⟩
  else if inv = whichInv "yum" then some ⟨false, .valid ""⟩
  else some ⟨true, .valid ""⟩

/-- A host with an Intel card whose monitoring tool is already present. -/
def intelPresentEnv : Env := fun inv =>
  if inv = lspciInv then some ⟨true, .valid "Some Intel device"⟩
  else some ⟨true, .valid ""⟩

/-- `check_top_exists_local` is, for every vendor, the `which` lookup of
that vendor's `toolBinary`. -/
theorem check_top_spec (env : Env) (gpu_type : GpuType) :
    check_top_exists_local env gpu_type =
      (match env (whichInv (toolBinary gpu_type)) with
        | none => .error .toolExecutionFailed
        | some r => .ok r.success,
       [whichInv (toolBinary gpu_type)]) := by
  cases gpu_type <;> rfl

/-- Every invocation traced by the package-manager probe loop is a `which`
lookup of one of the probed names. -/
theorem pm_loop_trace_mem (env : Env) (names : List String) :
    ∀ x ∈ (identify_package_manager_loop env names).2, ∃ n ∈ names, x = whichInv n := by
  induction names with
  | nil =>
    intro x hx
    simp [identify_package_manager_loop] at hx
  | cons name rest ih =>
    intro x hx
    simp only [identify_package_manager_loop] at hx
    rcases hE : env (whichInv name) with _ | r <;> simp only [hE] at hx
    · simp at hx
      exact ⟨name, by simp, hx⟩
    · by_cases hs : r.success = true
      · rw [if_pos hs] at hx
        rcases hq : pmOfName name with _ | pm <;> simp only [hq] at hx <;> simp at hx <;>
          exact ⟨name, by simp, hx⟩
      · rw [if_neg hs] at hx
        simp at hx
        rcases hx with h | h
        · exact ⟨name, by simp, h⟩
        · rcases ih x h with ⟨n, hn, hxn⟩
          exact ⟨n, by simp [hn], hxn⟩

/-- When the first `k` ticks succeed with the given lines and tick `k`
panics with `e`, the polling loop stops at tick `k` with exactly the first
`k` lines printed, for any cut-off beyond `k`. -/
theorem runPoll_stops (gpu_type : GpuType) (e : RunError) :
    ∀ (k fuel : Nat) (envs : Nat → Env) (lines : Nat → String),
      (∀ j, j < k → pollTick (envs j) gpu_type = .ok (lines j)) →
      pollTick (envs k) gpu_type = .error e → k < fuel →
      runPoll envs gpu_type fuel = (.error e, (List.range k).map lines) := by
  intro k
  induction k with
  | zero =>
    intro fuel envs lines hgood hbad hf
    cases fuel with
    | zero => omega
    | succ m => simp [runPoll, hbad]
  | succ k ih =>
    intro fuel envs lines hgood hbad hf
    cases fuel with
    | zero => omega
    | succ m =>
      have h0 : pollTick (envs 0) gpu_type = .ok (lines 0) := hgood 0 (Nat.succ_pos k)
      have hrec := ih m (fun n => envs (n + 1)) (fun n => lines (n + 1))
        (fun j hj => hgood (j + 1) (by omega)) hbad (by omega)
      simp [runPoll, h0, hrec, List.range_succ_eq_map, List.map_map, Function.comp]

/-- A successful vendor detection determines the whole result of
`identify_gpu_card`, its one-invocation trace included. -/
theorem gpu_pair (env : Env) (gpu_type : GpuType)
    (hg : (identify_gpu_card env).1 = .ok gpu_type) :
    identify_gpu_card env = (.ok gpu_type, [lspciInv]) :=
  Prod.ext hg rfl

/-- Claim C1, counterexample: on a host where the install subprocess for
vendor Amd under Pacman runs but exits non-zero, `install_top_for_gpu_to`
still returns success, and the run reaches the polling loop and prints a
tick — refuting that a non-zero exit yields a fatal install error that
keeps the run from polling. -/
theorem install_nonzero_exit_not_fatal :
    amdPacmanEnv (installInvocation .Amd .Pacman) = some ⟨false, .valid ""⟩ ∧
    (install_top_for_gpu_to amdPacmanEnv .Amd .Pacman).1 = .ok () ∧
    (mainSetup amdPacmanEnv).1 = .ok .Amd ∧
    mainRun amdPacmanEnv (fun _ => amdPacmanEnv) 1 = (.ok (), ["7"]) := by
  refine ⟨by decide, by decide, by decide, by decide⟩

/-- Claim C1 (amended): `install_top_for_gpu_to` never inspects the install
subprocess's exit status — it returns success whenever the subprocess
spawns, non-zero exit status included, and only a failure to spawn is
fatal, surfacing as the generic spawn-failure panic. -/
theorem install_ignores_exit_status (env : Env) (gpu_type : GpuType)
    (pm : PackageManager) :
    (∀ r, env (installInvocation gpu_type pm) = some r →
      install_top_for_gpu_to env gpu_type pm =
        (.ok (), [installInvocation gpu_type pm])) ∧
    (env (installInvocation gpu_type pm) = none →
      install_top_for_gpu_to env gpu_type pm =
        (.error .toolExecutionFailed, [installInvocation gpu_type pm])) := by
  constructor
  · intro r h
    simp [install_top_for_gpu_to, h]
  · intro h
    simp [install_top_for_gpu_to, h]

/-- Claim C1, witness: the amended statement evaluated on the concrete host
whose install subprocess exits non-zero, and on one where it cannot spawn. -/
theorem install_ignores_exit_status_witness :
    install_top_for_gpu_to amdPacmanEnv .Amd .Pacman =
      (.ok (), [installInvocation .Amd .Pacman]) ∧
    install_top_for_gpu_to spawnFailEnv .Amd .Pacman =
      (.error .toolExecutionFailed, [installInvocation .Amd .Pacman]) :=
  ⟨(install_ignores_exit_status amdPacmanEnv .Amd .Pacman).1 ⟨false, .valid ""⟩
      (by decide),
   (install_ignores_exit_status spawnFailEnv .Amd .Pacman).2 rfl⟩

/-- Claim C2: what each vendor's polling tick actually spawns. The Nvidia
invocation carries the two separate query arguments; the Amd invocation is
`radeontop` with the single fused argument "-d -" (not the two-element list
-d, -), and the Intel invocation is `intel_gpu_top` with the two fused
arguments "-s 1" and "-o -" (not the four-element list -s, 1, -o, -). -/
theorem poll_invocation_actual :
    pollInvocation .Nvidia =
      ⟨"nvidia-smi", ["--query-gpu=utilization.gpu", "--format=csv,noheader,nounits"]⟩ ∧
    pollInvocation .Amd = ⟨"radeontop", ["-d -"]⟩ ∧
    pollInvocation .Intel = ⟨"intel_gpu_top", ["-s 1", "-o -"]⟩ ∧
    ((pollInvocation .Amd).args == ["-d", "-"]) = false ∧
    ((pollInvocation .Intel).args == ["-s", "1", "-o", "-"]) = false := by
  refine ⟨rfl, rfl, rfl, by decide, by decide⟩

/-- Claim C3: `identify_gpu_card` scans the decoded `lspci -v` stdout for
"NVIDIA", "AMD", "Intel" in that fixed order with first match winning — in
particular any text containing "NVIDIA" (wherever it occurs, e.g. after
"AMD") resolves to Nvidia — and fails with the unsupported-hardware panic
when none of the three substrings occurs. -/
theorem identify_gpu_priority (env : Env) (r : SpawnResult) (s : String)
    (h : env lspciInv = some r) (hs : r.stdout = Bytes.valid s) :
    (strContains s "NVIDIA" = true → (identify_gpu_card env).1 = .ok .Nvidia) ∧
    (strContains s "NVIDIA" = false → strContains s "AMD" = true →
      (identify_gpu_card env).1 = .ok .Amd) ∧
    (strContains s "NVIDIA" = false → strContains s "AMD" = false →
      strContains s "Intel" = true → (identify_gpu_card env).1 = .ok .Intel) ∧
    (strContains s "NVIDIA" = false → strContains s "AMD" = false →
      strContains s "Intel" = false →
      (identify_gpu_card env).1 = .error .unsupportedHardware) := by
  refine ⟨fun h1 => ?_, fun h1 h2 => ?_, fun h1 h2 h3 => ?_, fun h1 h2 h3 => ?_⟩ <;>
    simp_all [identify_gpu_card, from_utf8]

/-- Claim C3, witness: a PCI text containing "AMD" before "NVIDIA" still
resolves to Nvidia. -/
theorem identify_gpu_priority_witness :
    (identify_gpu_card bothVendorEnv).1 = .ok .Nvidia :=
  (identify_gpu_priority bothVendorEnv ⟨true, .valid "AMD NVIDIA"⟩ "AMD NVIDIA"
      (by decide) rfl).1 (by decide)

/-- Claim C5: `check_top_exists_local` returns exactly the lookup
subprocess's `status.success()` — `true` on exit 0, `false` on non-zero
exit, without an error — and a failure to spawn the `which` lookup itself
is the fatal spawn-failure panic, never a `false` answer. -/
theorem tool_present_status (env : Env) (gpu_type : GpuType) :
    (∀ r, env (whichInv (toolBinary gpu_type)) = some r →
      (check_top_exists_local env gpu_type).1 = .ok r.success) ∧
    (env (whichInv (toolBinary gpu_type)) = none →
      (check_top_exists_local env gpu_type).1 = .error .toolExecutionFailed) := by
  constructor
  · intro r h
    rw [check_top_spec, h]
  · intro h
    rw [check_top_spec, h]

/-- Claim C5, witness: the lookup exiting non-zero yields `false` and a
lookup that cannot spawn yields the fatal error, on concrete hosts. -/
theorem tool_present_status_witness :
    (check_top_exists_local toolAbsentEnv .Nvidia).1 = .ok false ∧
    (check_top_exists_local spawnFailEnv .Nvidia).1 = .error .toolExecutionFailed :=
  ⟨(tool_present_status toolAbsentEnv .Nvidia).1 ⟨false, .valid ""⟩ (by decide),
   (tool_present_status spawnFailEnv .Nvidia).2 rfl⟩

/-- Claim C7: for every vendor, the install invocation under each package
manager is exactly the manager binary, its install verb, its
non-interactive flag and the vendor's package name; in particular vendor
Amd under Pacman is exactly `pacman -S --noconfirm radeontop`. -/
theorem install_invocation_determined (gpu_type : GpuType) :
    installInvocation gpu_type .Apt =
      ⟨"apt", ["install", "-y", installPackage gpu_type]⟩ ∧
    installInvocation gpu_type .Pacman =
      ⟨"pacman", ["-S", "--noconfirm", installPackage gpu_type]⟩ ∧
    installInvocation gpu_type .Yum =
      ⟨"yum", ["install", "-y", installPackage gpu_type]⟩ ∧
    installInvocation .Amd .Pacman = ⟨"pacman", ["-S", "--noconfirm", "radeontop"]⟩ := by
  cases gpu_type <;> exact ⟨rfl, rfl, rfl, rfl⟩

/-- Claim C9: the vendor-to-binary mapping realized by the code is total
(a function on all three vendors), is injective — no two vendors share a
monitoring binary — and is exactly what `check_top_exists_local` probes;
the vendor-to-package mapping is the final argument of every install
invocation. -/
theorem tool_registry_total_injective :
    Function.Injective toolBinary ∧
    (∀ (env : Env) (gpu_type : GpuType),
      (check_top_exists_local env gpu_type).2 = [whichInv (toolBinary gpu_type)]) ∧
    (∀ (gpu_type : GpuType) (pm : PackageManager),
      (installInvocation gpu_type pm).args.getLast? = some (installPackage gpu_type)) := by
  refine ⟨?_, ?_, ?_⟩
  · intro a b h
    cases a <;> cases b <;> first | rfl | exact absurd h (by decide)
  · intro env gpu_type
    cases gpu_type <;> rfl
  · intro gpu_type pm
    cases gpu_type <;> cases pm <;> rfl

/-- Claim C4: captured bytes that are not valid UTF-8 are fatal, identically
in vendor detection and in polling — `identify_gpu_card` fails with the
encoding panic when the `lspci` stdout does not decode, and a polling run
whose tick `k` captures undecodable stdout stops at tick `k` with the
encoding panic, having printed exactly the `k` earlier lines and running no
further tick. -/
theorem invalid_encoding_fatal (env : Env) (envs : Nat → Env) (gpu_type : GpuType)
    (rd rk : SpawnResult) (k fuel : Nat) (lines : Nat → String)
    (hd : env lspciInv = some rd) (hdb : rd.stdout = Bytes.invalid)
    (hgood : ∀ j, j < k → pollTick (envs j) gpu_type = .ok (lines j))
    (hk : envs k (pollInvocation gpu_type) = some rk)
    (hkb : rk.stdout = Bytes.invalid) (hf : k < fuel) :
    (identify_gpu_card env).1 = .error .invalidOutputEncoding ∧
    runPoll envs gpu_type fuel = (.error .invalidOutputEncoding, (List.range k).map lines) := by
  constructor
  · simp [identify_gpu_card, hd, hdb, from_utf8]
  · exact runPoll_stops gpu_type .invalidOutputEncoding k fuel envs lines hgood
      (by simp [pollTick, hk, hkb, from_utf8]) hf

/-- Claim C4, witness: on a host emitting undecodable bytes, detection
fails with the encoding panic and a polling run stops at its very first
tick with the encoding panic and no printed line. -/
theorem invalid_encoding_fatal_witness :
    (identify_gpu_card invalidUtf8Env).1 = .error .invalidOutputEncoding ∧
    runPoll (fun _ => invalidUtf8Env) .Nvidia 1 = (.error .invalidOutputEncoding, []) := by
  have h := invalid_encoding_fatal invalidUtf8Env (fun _ => invalidUtf8Env) .Nvidia
    ⟨true, .invalid⟩ ⟨true, .invalid⟩ 0 1 (fun _ => "")
    (by decide) rfl (fun j hj => absurd hj (by omega)) (by decide) rfl (by omega)
  simpa using h

/-- Claim C6: `identify_package_manager` probes apt, pacman, yum in that
fixed order, returns the first whose `which` lookup exits 0, and when none
of the three resolves it fails with the no-package-manager panic; a run
that reaches the probe (tool absent) then aborts without ever entering the
polling loop. -/
theorem package_manager_priority (env : Env) (ra rp ry : SpawnResult)
    (ha : env (whichInv "apt") = some ra)
    (hp : env (whichInv "pacman") = some rp)
    (hy : env (whichInv "yum") = some ry) :
    (ra.success = true → (identify_package_manager env).1 = .ok .Apt) ∧
    (ra.success = false → rp.success = true →
      (identify_package_manager env).1 = .ok .Pacman) ∧
    (ra.success = false → rp.success = false → ry.success = true →
      (identify_package_manager env).1 = .ok .Yum) ∧
    (ra.success = false → rp.success = false → ry.success = false →
      (identify_package_manager env).1 = .error .noPackageManagerFound ∧
      ∀ (gpu_type : GpuType) (rt : SpawnResult) (envs : Nat → Env) (fuel : Nat),
        (identify_gpu_card env).1 = .ok gpu_type →
        env (whichInv (toolBinary gpu_type)) = some rt → rt.success = false →
        mainRun env envs fuel = (.error .noPackageManagerFound, [])) := by
  have e1 : pmOfName "apt" = some .Apt := rfl
  have e2 : pmOfName "pacman" = some .Pacman := rfl
  have e3 : pmOfName "yum" = some .Yum := rfl
  refine ⟨fun h1 => ?_, fun h1 h2 => ?_, fun h1 h2 h3 => ?_, fun h1 h2 h3 => ?_⟩
  · simp [identify_package_manager, identify_package_manager_loop, ha, h1, e1]
  · simp [identify_package_manager, identify_package_manager_loop, ha, hp, h1, h2, e2]
  · simp [identify_package_manager, identify_package_manager_loop, ha, hp, hy,
      h1, h2, h3, e3]
  · have herr : (identify_package_manager env).1 = .error .noPackageManagerFound := by
      simp [identify_package_manager, identify_package_manager_loop, ha, hp, hy,
        h1, h2, h3]
    refine ⟨herr, ?_⟩
    intro gpu_type rt envs fuel hg ht hta
    have hpair : identify_gpu_card env = (.ok gpu_type, [lspciInv]) := gpu_pair env gpu_type hg
    have hcheck : check_top_exists_local env gpu_type =
        (.ok false, [whichInv (toolBinary gpu_type)]) := by
      simp [check_top_spec, ht, hta]
    rcases hP : identify_package_manager env with ⟨pmres, tr3⟩
    have hres : pmres = .error .noPackageManagerFound := by
      rw [hP] at herr
      simpa using herr
    subst hres
    simp [mainRun, mainSetup, hpair, hcheck, hP]

/-- Claim C6, witness: a host with an Intel card, the tool absent, and none
of apt, pacman, yum resolvable aborts with the no-package-manager panic
before any polling. -/
theorem package_manager_priority_witness :
    (identify_package_manager noPmEnv).1 = .error .noPackageManagerFound ∧
    mainRun noPmEnv (fun _ => noPmEnv) 3 = (.error .noPackageManagerFound, []) := by
  have h := (package_manager_priority noPmEnv ⟨false, .valid ""⟩ ⟨false, .valid ""⟩
    ⟨false, .valid ""⟩ (by decide) (by decide) (by decide)).2.2.2 rfl rfl rfl
  exact ⟨h.1, h.2 .Intel ⟨false, .valid ""⟩ (fun _ => noPmEnv) 3 (by decide) (by decide) rfl⟩

/-- Claim C8: when the vendor's monitoring tool is already present, the
setup phase performs exactly the PCI enumeration and the one presence
lookup — no package-manager probe and no install subprocess occur before
the polling loop. -/
theorem tool_present_skips_install (env : Env) (gpu_type : GpuType) (rt : SpawnResult)
    (hg : (identify_gpu_card env).1 = .ok gpu_type)
    (ht : env (whichInv (toolBinary gpu_type)) = some rt)
    (hts : rt.success = true) :
    mainSetup env = (.ok gpu_type, [lspciInv, whichInv (toolBinary gpu_type)]) := by
  have hpair : identify_gpu_card env = (.ok gpu_type, [lspciInv]) := gpu_pair env gpu_type hg
  have hcheck : check_top_exists_local env gpu_type =
      (.ok true, [whichInv (toolBinary gpu_type)]) := by
    simp [check_top_spec, ht, hts]
  simp [mainSetup, hpair, hcheck]

/-- Claim C8, witness: an Intel host whose tool is present runs only
`lspci -v` and `which intel_gpu_top` before polling. -/
theorem tool_present_skips_install_witness :
    mainSetup intelPresentEnv = (.ok .Intel, [lspciInv, whichInv (toolBinary .Intel)]) :=
  tool_present_skips_install intelPresentEnv .Intel ⟨true, .valid ""⟩
    (by decide) (by decide) rfl

/-- Claim C10: once the tool was absent and a package manager was found,
`main` reaches the polling loop unconditionally after the install
invocation — the trace is exactly detection, one presence lookup, the
manager probes and the install, the presence lookup is never repeated, and
the loop is entered for every install outcome `ri`, its exit status
included. -/
theorem polling_unconditional_after_install (env : Env) (gpu_type : GpuType)
    (pm : PackageManager) (rt ri : SpawnResult)
    (hg : (identify_gpu_card env).1 = .ok gpu_type)
    (ht : env (whichInv (toolBinary gpu_type)) = some rt)
    (hta : rt.success = false)
    (hpm : (identify_package_manager env).1 = .ok pm)
    (hi : env (installInvocation gpu_type pm) = some ri) :
    mainSetup env = (.ok gpu_type,
      [lspciInv, whichInv (toolBinary gpu_type)] ++ (identify_package_manager env).2
        ++ [installInvocation gpu_type pm]) ∧
    whichInv (toolBinary gpu_type) ∉ (identify_package_manager env).2 ∧
    ∀ (envs : Nat → Env) (fuel : Nat),
      mainRun env envs fuel = runPoll envs gpu_type fuel := by
  have hpair : identify_gpu_card env = (.ok gpu_type, [lspciInv]) := gpu_pair env gpu_type hg
  have hcheck : check_top_exists_local env gpu_type =
      (.ok false, [whichInv (toolBinary gpu_type)]) := by
    simp [check_top_spec, ht, hta]
  have hinst : install_top_for_gpu_to env gpu_type pm =
      (.ok (), [installInvocation gpu_type pm]) := by
    simp [install_top_for_gpu_to, hi]
  have hnm : whichInv (toolBinary gpu_type) ∉ (identify_package_manager env).2 := by
    intro hmem
    rcases pm_loop_trace_mem env ["apt", "pacman", "yum"] _ hmem with ⟨n, hn, he⟩
    have hnb : toolBinary gpu_type = n := by
      have h2 := congrArg Invocation.args he
      simpa [whichInv] using h2
    simp at hn
    rcases hn with rfl | rfl | rfl <;> cases gpu_type <;> exact absurd hnb (by decide)
  rcases hP : identify_package_manager env with ⟨pmres, tr3⟩
  have hres : pmres = .ok pm := by
    rw [hP] at hpm
    simpa using hpm
  subst hres
  rw [hP] at hnm
  have hsetup : mainSetup env = (.ok gpu_type,
      [lspciInv, whichInv (toolBinary gpu_type)] ++ tr3
        ++ [installInvocation gpu_type pm]) := by
    simp [mainSetup, hpair, hcheck, hP, hinst]
  exact ⟨hsetup, hnm, fun envs fuel => by simp [mainRun, hsetup]⟩

/-- Claim C10, witness: on the AMD host whose install subprocess exits
non-zero, setup still succeeds with the full trace, the presence lookup is
not repeated, and `main` proceeds to the polling loop. -/
theorem polling_unconditional_after_install_witness :
    mainSetup amdPacmanEnv = (.ok .Amd,
      [lspciInv, whichInv (toolBinary .Amd)] ++ (identify_package_manager amdPacmanEnv).2
        ++ [installInvocation .Amd .Pacman]) ∧
    whichInv (toolBinary .Amd) ∉ (identify_package_manager amdPacmanEnv).2 ∧
    ∀ (envs : Nat → Env) (fuel : Nat),
      mainRun amdPacmanEnv envs fuel = runPoll envs .Amd fuel :=
  polling_unconditional_after_install amdPacmanEnv .Amd .Pacman ⟨false, .valid ""⟩
    ⟨false, .valid ""⟩ (by decide) (by decide) rfl (by decide) (by decide)
